import Mathlib

/-!
Verification of the EDI gateway service (src/main.go) against its
natural-language specification.  The service is modelled as pure state
transformers: the two HTTP handlers become functions from a per-request
environment (the values drawn from `uuid.New()` / `time.Now()` and the
success or failure of the storage and stream collaborators) and the
current system state to a new state plus an HTTP response.
-/

namespace EdiGateway

/-- Model of a Go `time.Time` restricted to the calendar fields the program
formats (layout `"2006-01-02 15:04:05"`) and parses (RFC3339 during JSON
decoding). -/
structure DateTime where
  year : Nat
  month : Nat
  day : Nat
  hour : Nat
  minute : Nat
  second : Nat
deriving DecidableEq

/-- Zero-pad a number to two digits, as Go's `01`/`02`/`15`/`04`/`05`
layout verbs do. -/
def pad2 (n : Nat) : String :=
  if n < 10 then "0" ++ toString n else toString n

/-- Zero-pad a year to four digits, as Go's `2006` layout verb does. -/
def pad4 (n : Nat) : String :=
  if n < 10 then "000" ++ toString n
  else if n < 100 then "00" ++ toString n
  else if n < 1000 then "0" ++ toString n
  else toString n

/-- Model of `t.Date.Format("2006-01-02 15:04:05")` (src/main.go line 112). -/
def DateTime.format (d : DateTime) : String :=
  pad4 d.year ++ "-" ++ pad2 d.month ++ "-" ++ pad2 d.day ++ " " ++
    pad2 d.hour ++ ":" ++ pad2 d.minute ++ ":" ++ pad2 d.second

/-- A JSON value occurring in a request-body object.  The `Transaction`
struct's string fields only accept JSON strings and its `Date` field only
accepts RFC3339 strings, so every non-string JSON value is collapsed to
`other`, on which decoding of any matched field fails, as in
`encoding/json`. -/
inductive JValue where
  | str (s : String)
  | other
deriving DecidableEq

/-- The `Transaction` model (src/main.go lines 38-44).  Field names are the
Go field names; the JSON tags are `id`, `date`, `ship_to`, `items`,
`status` — note the `ItemList` field's JSON tag is `items`, not
`item_list`. -/
structure Transaction where
  ID : String
  Date : DateTime
  ShipTo : String
  ItemList : String
  Status : String
deriving DecidableEq

/-- The JSON tags of `Transaction`, in field order. -/
def jsonTags : List String := ["id", "date", "ship_to", "items", "status"]

/-- ASCII lowering of a key, written on the character list so that it
evaluates by kernel reduction. -/
def lowerKey (k : String) : String := ⟨k.data.map Char.toLower⟩

/-- Key matching of `encoding/json`: an incoming object key is matched
against the field tags, preferring an exact match, otherwise accepting a
case-insensitive match (modelled by lowering the key; the tags are all
lowercase).  An unmatched key yields `none` and is ignored. -/
def matchTag (k : String) : Option String :=
  if jsonTags.contains k then some k
  else jsonTags.find? (fun tag => tag == lowerKey k)

/-- Digits-only string of characters to a number; `none` if empty or any
character is not a digit. -/
def charsToNat? (cs : List Char) : Option Nat :=
  if !cs.isEmpty && cs.all Char.isDigit then
    some (cs.foldl (fun n c => n * 10 + (c.toNat - 48)) 0)
  else none

/-- Model of `encoding/json` unmarshalling of a JSON string into a
`time.Time`: the string must be an RFC3339 timestamp.  Restricted here to
the canonical `YYYY-MM-DDTHH:MM:SSZ` shape; every other string fails, as
every non-RFC3339 string fails in Go. -/
def parseRFC3339 (s : String) : Option DateTime :=
  let cs := s.data
  if cs.length == 20 && cs.get? 4 == some '-' && cs.get? 7 == some '-' &&
      cs.get? 10 == some 'T' && cs.get? 13 == some ':' &&
      cs.get? 16 == some ':' && cs.get? 19 == some 'Z' then
    match charsToNat? (cs.take 4), charsToNat? ((cs.drop 5).take 2),
        charsToNat? ((cs.drop 8).take 2), charsToNat? ((cs.drop 11).take 2),
        charsToNat? ((cs.drop 14).take 2), charsToNat? ((cs.drop 17).take 2) with
    | some y, some mo, some d, some h, some mi, some sec =>
        some ⟨y, mo, d, h, mi, sec⟩
    | _, _, _, _, _, _ => none
  else none

/-- The Go zero value of `time.Time`: January 1, year 1, 00:00:00. -/
def zeroDateTime : DateTime := ⟨1, 1, 1, 0, 0, 0⟩

/-- The Go zero value of `Transaction`, the starting point of
`var transaction Transaction` before decoding (src/main.go line 71). -/
def zeroTransaction : Transaction := ⟨"", zeroDateTime, "", "", ""⟩

/-- One step of `json.Decode` into a `Transaction`: assign one object entry
to the struct field whose tag matches the key.  Later duplicate keys
overwrite earlier ones, unmatched keys are ignored, and a value of the
wrong type for a matched field is a decode error. -/
def setField (t : Transaction) (kv : String × JValue) : Option Transaction :=
  match matchTag kv.1 with
  | some "id" =>
      match kv.2 with
      | .str s => some { t with ID := s }
      | .other => none
  | some "date" =>
      match kv.2 with
      | .str s => (parseRFC3339 s).map (fun d => { t with Date := d })
      | .other => none
  | some "ship_to" =>
      match kv.2 with
      | .str s => some { t with ShipTo := s }
      | .other => none
  | some "items" =>
      match kv.2 with
      | .str s => some { t with ItemList := s }
      | .other => none
  | some "status" =>
      match kv.2 with
      | .str s => some { t with Status := s }
      | .other => none
  | _ => some t

/-- Model of `json.NewDecoder(r.Body).Decode(&transaction)` on a body that
is a JSON object: start from the zero value and assign the object's
entries in order (src/main.go line 72). -/
def decodeTransaction (obj : List (String × JValue)) : Option Transaction :=
  obj.foldlM setField zeroTransaction

/-- A request body as seen by the decoder: `none` when the body is not a
JSON object decodable at the top level (e.g. the literal text `not-json`),
otherwise the object's key/value entries in order. -/
abbrev Body := Option (List (String × JValue))

/-- The observable state of the system: the storage collaborator's table in
insertion order, the messages accepted by the stream publisher, and the
two Prometheus counters. -/
structure SystemState where
  store : List Transaction
  published : List Transaction
  inboundCount : Nat
  outboundCount : Nat
deriving DecidableEq

/-- The state at process start: empty table, nothing published, both
counters zero. -/
def initState : SystemState := ⟨[], [], 0, 0⟩

/-- An HTTP response: status code and body text (`http.Error` appends a
newline to its message). -/
structure Response where
  status : Nat
  body : String
deriving DecidableEq

/-- Per-request environment of the inbound handler: the value returned by
`uuid.New().String()`, the value of `time.Now()`, and whether the
`db.Create` and `kafkaWriter.WriteMessages` collaborator calls fail. -/
structure InEnv where
  freshId : String
  now : DateTime
  createFails : Bool
  publishFails : Bool
deriving DecidableEq

/-- Per-request environment of the outbound handler: whether `db.Find`
fails. -/
structure OutEnv where
  findFails : Bool
deriving DecidableEq

/-- The record actually stored for a decoded body: the decoded fields with
identifier, status and date overwritten by the server
(src/main.go lines 77-80). -/
def processed (env : InEnv) (t : Transaction) : Transaction :=
  { t with ID := env.freshId, Status := "Processed", Date := env.now }

/-- Go's `%+v` rendering of a `Transaction` used in the success
confirmation (the `Date` rendering is abbreviated to the display layout;
no claim depends on this body). -/
def goPlusV (t : Transaction) : String :=
  "\x7bID:" ++ t.ID ++ " Date:" ++ t.Date.format ++ " ShipTo:" ++ t.ShipTo ++
    " ItemList:" ++ t.ItemList ++ " Status:" ++ t.Status ++ "\x7d"

/-- Model of `inboundHandler` (src/main.go lines 68-98): bump the inbound
counter, decode, overwrite server fields, write to storage, publish to the
stream, each failure aborting with the handler's error response. -/
def inboundHandler (env : InEnv) (body : Body) (s : SystemState) :
    SystemState × Response :=
  let s1 : SystemState := { s with inboundCount := s.inboundCount + 1 }
  match body >>= decodeTransaction with
  | none => (s1, ⟨400, "Invalid JSON\n"⟩)
  | some t0 =>
    let t : Transaction := processed env t0
    if env.createFails then
      (s1, ⟨500, "Failed to save transaction\n"⟩)
    else
      let s2 : SystemState := { s1 with store := s1.store ++ [t] }
      if env.publishFails then
        (s2, ⟨500, "Failed to publish to Kafka\n"⟩)
      else
        let s3 : SystemState := { s2 with published := s2.published ++ [t] }
        (s3, ⟨200, "Inbound transaction processed: " ++ goPlusV t ++ "\n"⟩)

/-- The line built by `fmt.Sprintf` in `outboundHandler` (src/main.go
lines 111-112); the format string itself ends with a newline. -/
def ediLine (t : Transaction) : String :=
  "EDI 856: Shipment " ++ t.ID ++ " to " ++ t.ShipTo ++ " on " ++
    t.Date.format ++ " with items: " ++ t.ItemList ++ "\n"

/-- The loop body of `outboundHandler` over the fetched records:
`fmt.Fprintln(w, edi)` writes the `Sprintf` line (already
newline-terminated) plus the newline `Fprintln` appends
(src/main.go lines 110-114). -/
def renderAll : List Transaction → String
  | [] => ""
  | t :: ts => (ediLine t ++ "\n") ++ renderAll ts

/-- Model of `outboundHandler` (src/main.go lines 101-115): bump the
outbound counter, read all records, render them in order. -/
def outboundHandler (env : OutEnv) (s : SystemState) : SystemState × Response :=
  let s1 : SystemState := { s with outboundCount := s.outboundCount + 1 }
  if env.findFails then
    (s1, ⟨500, "Failed to fetch transactions\n"⟩)
  else
    (s1, ⟨200, renderAll s1.store⟩)

/-- The egress body as claim C6 words it ("exactly one formatted text line
per record, newline-separated"): each record contributes its formatted
line and a single newline.  To be compared with the implementation's
output. -/
def specEgressBody (ts : List Transaction) : String :=
  String.join (ts.map ediLine)

/-- `needle` occurs as a contiguous substring of `hay`. -/
def containsSub (hay needle : String) : Bool :=
  (List.range (hay.data.length + 1)).any
    (fun i => needle.data.isPrefixOf (hay.data.drop i))

/-- Joining strings distributes over cons. -/
theorem join_cons_str (x : String) (xs : List String) :
    String.join (x :: xs) = x ++ String.join xs := by
  apply String.ext
  simp

/-- The rendering loop of the outbound handler, written as a join over the
per-record segments. -/
theorem renderAll_eq_join (l : List Transaction) :
    renderAll l = String.join (l.map (fun t => ediLine t ++ "\n")) := by
  induction l with
  | nil => rfl
  | cons t ts ih => rw [List.map_cons, join_cons_str, renderAll, ih]

/-- The rendering loop of the outbound handler distributes over list
append. -/
theorem renderAll_append (l1 l2 : List Transaction) :
    renderAll (l1 ++ l2) = renderAll l1 ++ renderAll l2 := by
  induction l1 with
  | nil => simp [renderAll]
  | cons t ts ih =>
      rw [List.cons_append, renderAll, renderAll, ih, String.append_assoc]
      simp [String.append_assoc]

/-- A request that fails to decode only bumps the inbound counter and is
answered with the 400 response. -/
theorem inbound_decodeFail (env : InEnv) (body : Body) (s : SystemState)
    (h : body >>= decodeTransaction = none) :
    inboundHandler env body s
      = ({ s with inboundCount := s.inboundCount + 1 },
         ⟨400, "Invalid JSON\n"⟩) := by
  unfold inboundHandler
  rw [h]

/-- A decoded request whose storage write fails only bumps the inbound
counter and is answered with the storage-failure response. -/
theorem inbound_createFail (env : InEnv) (body : Body) (t : Transaction)
    (s : SystemState) (hd : body >>= decodeTransaction = some t)
    (hc : env.createFails = true) :
    inboundHandler env body s
      = ({ s with inboundCount := s.inboundCount + 1 },
         ⟨500, "Failed to save transaction\n"⟩) := by
  unfold inboundHandler
  rw [hd]
  simp [hc]

/-- A decoded request stored successfully but whose publish fails keeps the
stored record and is answered with the publish-failure response. -/
theorem inbound_publishFail (env : InEnv) (body : Body) (t : Transaction)
    (s : SystemState) (hd : body >>= decodeTransaction = some t)
    (hc : env.createFails = false) (hp : env.publishFails = true) :
    inboundHandler env body s
      = ({ s with
            inboundCount := s.inboundCount + 1
            store := s.store ++ [processed env t] },
         ⟨500, "Failed to publish to Kafka\n"⟩) := by
  unfold inboundHandler
  rw [hd]
  simp [hc, hp]

/-- A fully successful inbound request stores and publishes the processed
record and is answered with the confirmation. -/
theorem inbound_success (env : InEnv) (body : Body) (t : Transaction)
    (s : SystemState) (hd : body >>= decodeTransaction = some t)
    (hc : env.createFails = false) (hp : env.publishFails = false) :
    inboundHandler env body s
      = ({ s with
            inboundCount := s.inboundCount + 1
            store := s.store ++ [processed env t]
            published := s.published ++ [processed env t] },
         ⟨200, "Inbound transaction processed: "
            ++ goPlusV (processed env t) ++ "\n"⟩) := by
  unfold inboundHandler
  rw [hd]
  simp [hc, hp]

/-- Whenever the storage write succeeds, the processed record is appended
to the store, whether or not the publish succeeds. -/
theorem inbound_store_of_createOk (env : InEnv) (body : Body)
    (t : Transaction) (s : SystemState)
    (hd : body >>= decodeTransaction = some t)
    (hc : env.createFails = false) :
    (inboundHandler env body s).1.store = s.store ++ [processed env t] := by
  cases hp : env.publishFails
  · rw [inbound_success env body t s hd hc hp]
  · rw [inbound_publishFail env body t s hd hc hp]

/-- A failed storage read only bumps the outbound counter and is answered
with the read-failure response. -/
theorem outbound_findFail (env : OutEnv) (s : SystemState)
    (hf : env.findFails = true) :
    outboundHandler env s
      = ({ s with outboundCount := s.outboundCount + 1 },
         ⟨500, "Failed to fetch transactions\n"⟩) := by
  unfold outboundHandler
  simp [hf]

/-- A successful storage read renders all stored records. -/
theorem outbound_success (env : OutEnv) (s : SystemState)
    (hf : env.findFails = false) :
    outboundHandler env s
      = ({ s with outboundCount := s.outboundCount + 1 },
         ⟨200, renderAll s.store⟩) := by
  unfold outboundHandler
  simp [hf]

/-! Concrete inputs used by the witnesses: a request body that supplies
client values for every field, its decoded form, and environments for the
success and failure paths. -/

/-- A request body supplying client-side values for all five fields,
including an id, a date and a status that the server must overwrite. -/
def wBody : List (String × JValue) :=
  [("id", .str "client-id"), ("date", .str "2020-01-02T03:04:05Z"),
   ("ship_to", .str "Acme"), ("items", .str "payload"), ("status", .str "New")]

/-- The decoded form of `wBody`. -/
def wT : Transaction := ⟨"client-id", ⟨2020, 1, 2, 3, 4, 5⟩, "Acme", "payload", "New"⟩

/-- An all-collaborators-succeed environment. -/
def wEnv : InEnv := ⟨"id-1", ⟨2024, 5, 6, 7, 8, 9⟩, false, false⟩

/-- A second success environment with a different generated identifier. -/
def wEnv2 : InEnv := ⟨"id-2", ⟨2024, 5, 6, 7, 8, 10⟩, false, false⟩

/-- An environment whose storage write fails. -/
def wEnvCreateFail : InEnv := ⟨"id-3", ⟨2024, 5, 6, 7, 8, 9⟩, true, false⟩

/-- An environment whose stream publish fails. -/
def wEnvPublishFail : InEnv := ⟨"id-4", ⟨2024, 5, 6, 7, 8, 9⟩, false, true⟩

/-- C1 (counterexample): the spec's scenario posts the payload under the
JSON key `item_list`, but the `ItemList` field's JSON tag is `items`, so
that key is ignored by the decoder: the stored record's item-list field is
the empty string, not the supplied payload, and the egress output does not
contain the payload. -/
theorem c1_counterexample :
    ((inboundHandler ⟨"id-c1", ⟨2024, 1, 2, 3, 4, 5⟩, false, false⟩
        (some [("ship_to", JValue.str "Acme"),
               ("item_list", JValue.str "[\x7b\"sku\":\"A1\"\x7d]")])
        initState).1.store.map Transaction.ItemList = [""]) ∧
    containsSub
      ((outboundHandler ⟨false⟩
        (inboundHandler ⟨"id-c1", ⟨2024, 1, 2, 3, 4, 5⟩, false, false⟩
          (some [("ship_to", JValue.str "Acme"),
                 ("item_list", JValue.str "[\x7b\"sku\":\"A1\"\x7d]")])
          initState).1).2.body) "[\x7b\"sku\":\"A1\"\x7d]" = false ∧
    ("" : String) ≠ "[\x7b\"sku\":\"A1\"\x7d]" := by
  refine ⟨rfl, ?_, by decide⟩
  decide

/-- C1 (amended): for every ingress request whose body supplies the item
payload as a string under the JSON key `items` (the `ItemList` field's
actual JSON tag — a key named `item_list` is ignored), with storage write,
publish and the subsequent storage read all succeeding, the payload is
stored verbatim in the created record's item-list field and appears as a
literal substring of the egress output. -/
theorem c1_items_roundtrip (env : InEnv) (oenv : OutEnv) (s : SystemState)
    (shipTo payload : String)
    (hc : env.createFails = false) (hp : env.publishFails = false)
    (hf : oenv.findFails = false) :
    ((inboundHandler env
        (some [("ship_to", JValue.str shipTo), ("items", JValue.str payload)])
        s).1.store.map Transaction.ItemList
      = s.store.map Transaction.ItemList ++ [payload]) ∧
    ∃ pre suf : String,
      (outboundHandler oenv
        (inboundHandler env
          (some [("ship_to", JValue.str shipTo), ("items", JValue.str payload)])
          s).1).2.body = pre ++ (payload ++ suf) := by
  have hd : (some [("ship_to", JValue.str shipTo), ("items", JValue.str payload)]
        : Body) >>= decodeTransaction
      = some { zeroTransaction with ShipTo := shipTo, ItemList := payload } := rfl
  rw [inbound_success env _ _ s hd hc hp]
  constructor
  · simp [processed]
  · rw [outbound_success oenv _ hf]
    refine ⟨renderAll s.store ++ "EDI 856: Shipment " ++ env.freshId ++ " to "
        ++ shipTo ++ " on " ++ env.now.format ++ " with items: ",
      "\n" ++ "\n", ?_⟩
    simp [renderAll_append, renderAll, ediLine, processed, String.append_assoc]

/-- C1 (witness for the amended theorem). -/
theorem c1_items_roundtrip_witness :
    ((inboundHandler wEnv
        (some [("ship_to", JValue.str "Acme"), ("items", JValue.str "SKUS")])
        initState).1.store.map Transaction.ItemList
      = initState.store.map Transaction.ItemList ++ ["SKUS"]) ∧
    ∃ pre suf : String,
      (outboundHandler ⟨false⟩
        (inboundHandler wEnv
          (some [("ship_to", JValue.str "Acme"), ("items", JValue.str "SKUS")])
          initState).1).2.body = pre ++ ("SKUS" ++ suf) :=
  c1_items_roundtrip wEnv ⟨false⟩ initState "Acme" "SKUS" rfl rfl rfl

/-- C2: for every ingress request whose body decodes successfully and whose
storage write succeeds, the stored record carries the server-generated
(non-empty) identifier, status `"Processed"` and the server-assigned date,
while the caller-supplied `ship_to` and item payload are kept; the
client-supplied id, date and status never reach the stored record. -/
theorem c2_server_fields (env : InEnv) (s : SystemState)
    (obj : List (String × JValue)) (t : Transaction)
    (hd : decodeTransaction obj = some t)
    (hid : env.freshId ≠ "") (hc : env.createFails = false) :
    ∃ r : Transaction,
      (inboundHandler env (some obj) s).1.store = s.store ++ [r] ∧
      r.ID = env.freshId ∧ r.ID ≠ "" ∧ r.Status = "Processed" ∧
      r.Date = env.now ∧ r.ShipTo = t.ShipTo ∧ r.ItemList = t.ItemList := by
  have hb : (some obj : Body) >>= decodeTransaction = some t := hd
  exact ⟨processed env t,
    inbound_store_of_createOk env (some obj) t s hb hc,
    rfl, hid, rfl, rfl, rfl, rfl⟩

/-- C2 (witness): the client supplies id `"client-id"`, a date and status
`"New"`; the stored record carries `wEnv`'s identifier and date and status
`"Processed"` instead. -/
theorem c2_server_fields_witness :
    ∃ r : Transaction,
      (inboundHandler wEnv (some wBody) initState).1.store
        = initState.store ++ [r] ∧
      r.ID = wEnv.freshId ∧ r.ID ≠ "" ∧ r.Status = "Processed" ∧
      r.Date = wEnv.now ∧ r.ShipTo = wT.ShipTo ∧ r.ItemList = wT.ItemList :=
  c2_server_fields wEnv initState wBody wT rfl (by decide) rfl

/-- C3: for every ingress request that decodes but whose storage write
fails, the handler answers with the 500 storage-failure response and the
stream publisher observes zero calls: the published list and the store are
unchanged. -/
theorem c3_storage_failure_no_publish (env : InEnv) (s : SystemState)
    (obj : List (String × JValue)) (t : Transaction)
    (hd : decodeTransaction obj = some t) (hc : env.createFails = true) :
    (inboundHandler env (some obj) s).2
        = ⟨500, "Failed to save transaction\n"⟩ ∧
    (inboundHandler env (some obj) s).1.published = s.published ∧
    (inboundHandler env (some obj) s).1.store = s.store := by
  have hb : (some obj : Body) >>= decodeTransaction = some t := hd
  rw [inbound_createFail env (some obj) t s hb hc]
  exact ⟨rfl, rfl, rfl⟩

/-- C3 (witness). -/
theorem c3_storage_failure_no_publish_witness :
    (inboundHandler wEnvCreateFail (some wBody) initState).2
        = ⟨500, "Failed to save transaction\n"⟩ ∧
    (inboundHandler wEnvCreateFail (some wBody) initState).1.published
        = initState.published ∧
    (inboundHandler wEnvCreateFail (some wBody) initState).1.store
        = initState.store :=
  c3_storage_failure_no_publish wEnvCreateFail initState wBody wT rfl rfl

/-- C4: for every ingress request where the storage write succeeds but the
stream publish fails, the handler answers with the 500 publish-failure
response while the stored record stays in storage (nothing is published,
nothing rolled back), and a subsequent successful egress call still
renders that record after the previously stored ones. -/
theorem c4_publish_failure_durable (env : InEnv) (oenv : OutEnv)
    (s : SystemState) (obj : List (String × JValue)) (t : Transaction)
    (hd : decodeTransaction obj = some t)
    (hc : env.createFails = false) (hp : env.publishFails = true)
    (hf : oenv.findFails = false) :
    (inboundHandler env (some obj) s).2
        = ⟨500, "Failed to publish to Kafka\n"⟩ ∧
    (inboundHandler env (some obj) s).1.store
        = s.store ++ [processed env t] ∧
    (inboundHandler env (some obj) s).1.published = s.published ∧
    (outboundHandler oenv (inboundHandler env (some obj) s).1).2.body
        = renderAll s.store ++ (ediLine (processed env t) ++ "\n") := by
  have hb : (some obj : Body) >>= decodeTransaction = some t := hd
  rw [inbound_publishFail env (some obj) t s hb hc hp]
  refine ⟨rfl, rfl, rfl, ?_⟩
  rw [outbound_success oenv _ hf]
  simp [renderAll_append, renderAll]

/-- C4 (witness). -/
theorem c4_publish_failure_durable_witness :
    (inboundHandler wEnvPublishFail (some wBody) initState).2
        = ⟨500, "Failed to publish to Kafka\n"⟩ ∧
    (inboundHandler wEnvPublishFail (some wBody) initState).1.store
        = initState.store ++ [processed wEnvPublishFail wT] ∧
    (inboundHandler wEnvPublishFail (some wBody) initState).1.published
        = initState.published ∧
    (outboundHandler ⟨false⟩
        (inboundHandler wEnvPublishFail (some wBody) initState).1).2.body
        = renderAll initState.store
            ++ (ediLine (processed wEnvPublishFail wT) ++ "\n") :=
  c4_publish_failure_durable wEnvPublishFail ⟨false⟩ initState wBody wT
    rfl rfl rfl rfl

/-- C5 (counterexample): on the malformed body the handler answers 400 and
creates no record and publishes nothing — but it is not true that "no side
effects occur": the inbound counter increments, so the resulting state
differs from the initial one. -/
theorem c5_counterexample :
    (inboundHandler ⟨"id-c5", ⟨2024, 1, 1, 0, 0, 0⟩, false, false⟩
        none initState).2.status = 400 ∧
    (inboundHandler ⟨"id-c5", ⟨2024, 1, 1, 0, 0, 0⟩, false, false⟩
        none initState).1.store = [] ∧
    (inboundHandler ⟨"id-c5", ⟨2024, 1, 1, 0, 0, 0⟩, false, false⟩
        none initState).1.published = [] ∧
    (inboundHandler ⟨"id-c5", ⟨2024, 1, 1, 0, 0, 0⟩, false, false⟩
        none initState).1 ≠ initState := by
  exact ⟨rfl, rfl, rfl, by decide⟩

/-- C5 (amended): for every ingress request whose body does not decode into
the Transaction shape, the handler answers 400 with the `Invalid JSON`
message, no record is created, no publish occurs, and the only side effect
is the inbound-attempt counter increment: the resulting state is exactly
the old state with that counter bumped. -/
theorem c5_malformed (env : InEnv) (body : Body) (s : SystemState)
    (h : body >>= decodeTransaction = none) :
    (inboundHandler env body s).2 = ⟨400, "Invalid JSON\n"⟩ ∧
    (inboundHandler env body s).1
        = { s with inboundCount := s.inboundCount + 1 } := by
  rw [inbound_decodeFail env body s h]
  exact ⟨rfl, rfl⟩

/-- C5 (witness): the body is not JSON at all. -/
theorem c5_malformed_witness :
    (inboundHandler wEnv none initState).2 = ⟨400, "Invalid JSON\n"⟩ ∧
    (inboundHandler wEnv none initState).1
        = { initState with inboundCount := initState.inboundCount + 1 } :=
  c5_malformed wEnv none initState rfl

/-- A one-record store used to exhibit the egress line format. -/
def c6State : SystemState :=
  ⟨[⟨"t1", ⟨2024, 1, 2, 3, 4, 5⟩, "Acme", "X", "Processed"⟩], [], 0, 0⟩

/-- C6 (counterexample): with one stored record, the egress body is not the
newline-separated one-line-per-record text the claim describes: the
`Sprintf` line already ends in a newline and `Fprintln` appends another,
so the body carries an extra blank line per record. -/
theorem c6_counterexample :
    (outboundHandler ⟨false⟩ c6State).2.body
        = specEgressBody c6State.store ++ "\n" ∧
    (outboundHandler ⟨false⟩ c6State).2.body ≠ specEgressBody c6State.store := by
  exact ⟨by decide, by decide⟩

/-- C6 (amended): a successful egress call answers 200 and its body is, per
stored record in order, the record's formatted line — identifier,
destination, the `"2006-01-02 15:04:05"`-formatted timestamp and the raw
item payload — terminated by the line's own newline plus one extra newline
appended by the line writer, so records are separated by a blank line. -/
theorem c6_egress_format (oenv : OutEnv) (s : SystemState)
    (hf : oenv.findFails = false) :
    (outboundHandler oenv s).2.status = 200 ∧
    (outboundHandler oenv s).2.body
      = String.join (s.store.map (fun t =>
          "EDI 856: Shipment " ++ t.ID ++ " to " ++ t.ShipTo ++ " on " ++
            t.Date.format ++ " with items: " ++ t.ItemList ++ "\n" ++ "\n")) := by
  rw [outbound_success oenv s hf]
  exact ⟨rfl, renderAll_eq_join s.store⟩

/-- C6 (witness for the amended theorem). -/
theorem c6_egress_format_witness :
    (outboundHandler ⟨false⟩ c6State).2.status = 200 ∧
    (outboundHandler ⟨false⟩ c6State).2.body
      = String.join (c6State.store.map (fun t =>
          "EDI 856: Shipment " ++ t.ID ++ " to " ++ t.ShipTo ++ " on " ++
            t.Date.format ++ " with items: " ++ t.ItemList ++ "\n" ++ "\n")) :=
  c6_egress_format ⟨false⟩ c6State rfl

/-- C7: ingress is not idempotent: two successive ingress calls with the
same decoded body, both of whose storage writes succeed and whose
generated identifiers differ (as fresh UUIDs do), store two distinct
records with different identifiers. -/
theorem c7_not_idempotent (e1 e2 : InEnv) (s : SystemState)
    (obj : List (String × JValue)) (t : Transaction)
    (hd : decodeTransaction obj = some t)
    (h1 : e1.createFails = false) (h2 : e2.createFails = false)
    (hne : e1.freshId ≠ e2.freshId) :
    ∃ r1 r2 : Transaction,
      (inboundHandler e2 (some obj)
          (inboundHandler e1 (some obj) s).1).1.store
        = s.store ++ [r1, r2] ∧ r1.ID ≠ r2.ID ∧ r1 ≠ r2 := by
  have hb : (some obj : Body) >>= decodeTransaction = some t := hd
  refine ⟨processed e1 t, processed e2 t, ?_, hne, ?_⟩
  · rw [inbound_store_of_createOk e2 (some obj) t _ hb h2,
      inbound_store_of_createOk e1 (some obj) t s hb h1]
    simp
  · intro h
    exact hne (congrArg Transaction.ID h)

/-- C7 (witness): the same body submitted twice under two environments with
distinct generated identifiers. -/
theorem c7_not_idempotent_witness :
    ∃ r1 r2 : Transaction,
      (inboundHandler wEnv2 (some wBody)
          (inboundHandler wEnv (some wBody) initState).1).1.store
        = initState.store ++ [r1, r2] ∧ r1.ID ≠ r2.ID ∧ r1 ≠ r2 :=
  c7_not_idempotent wEnv wEnv2 initState wBody wT rfl rfl rfl (by decide)

/-- C8: every inbound call bumps the inbound counter by exactly one and
leaves the outbound counter unchanged, whatever the outcome (decode,
storage or publish failure included); every outbound call bumps the
outbound counter by exactly one and leaves the inbound counter unchanged,
whatever the record count or read outcome. -/
theorem c8_counters (env : InEnv) (oenv : OutEnv) (body : Body)
    (s : SystemState) :
    (inboundHandler env body s).1.inboundCount = s.inboundCount + 1 ∧
    (inboundHandler env body s).1.outboundCount = s.outboundCount ∧
    (outboundHandler oenv s).1.outboundCount = s.outboundCount + 1 ∧
    (outboundHandler oenv s).1.inboundCount = s.inboundCount := by
  have hio : (outboundHandler oenv s).1.outboundCount = s.outboundCount + 1 ∧
      (outboundHandler oenv s).1.inboundCount = s.inboundCount := by
    cases hf : oenv.findFails
    · rw [outbound_success oenv s hf]; exact ⟨rfl, rfl⟩
    · rw [outbound_findFail oenv s hf]; exact ⟨rfl, rfl⟩
  have hin : (inboundHandler env body s).1.inboundCount = s.inboundCount + 1 ∧
      (inboundHandler env body s).1.outboundCount = s.outboundCount := by
    cases hb : body >>= decodeTransaction with
    | none => rw [inbound_decodeFail env body s hb]; exact ⟨rfl, rfl⟩
    | some t =>
        cases hc : env.createFails
        · cases hp : env.publishFails
          · rw [inbound_success env body t s hb hc hp]; exact ⟨rfl, rfl⟩
          · rw [inbound_publishFail env body t s hb hc hp]; exact ⟨rfl, rfl⟩
        · rw [inbound_createFail env body t s hb hc]; exact ⟨rfl, rfl⟩
  exact ⟨hin.1, hin.2, hio.1, hio.2⟩

/-- C9: an egress call on an empty store whose read succeeds answers 200
with an empty body. -/
theorem c9_empty_egress (oenv : OutEnv) (s : SystemState)
    (h0 : s.store = []) (hf : oenv.findFails = false) :
    (outboundHandler oenv s).2 = ⟨200, ""⟩ := by
  rw [outbound_success oenv s hf, h0]
  rfl

/-- C9 (witness): the initial state has an empty store. -/
theorem c9_empty_egress_witness :
    (outboundHandler ⟨false⟩ initState).2 = ⟨200, ""⟩ :=
  c9_empty_egress ⟨false⟩ initState rfl rfl

/-- C10: the body `\x7b\x7d` (an empty JSON object) decodes into the zero
Transaction, so with both collaborators succeeding a record is created,
stored and published with empty-string destination and item payload — the
handler validates neither presence nor non-emptiness of caller fields. -/
theorem c10_empty_object (env : InEnv) (s : SystemState)
    (hc : env.createFails = false) (hp : env.publishFails = false) :
    (inboundHandler env (some []) s).1.store
      = s.store ++ [⟨env.freshId, env.now, "", "", "Processed"⟩] ∧
    (inboundHandler env (some []) s).1.published
      = s.published ++ [⟨env.freshId, env.now, "", "", "Processed"⟩] ∧
    (inboundHandler env (some []) s).2.status = 200 := by
  have hb : (some ([] : List (String × JValue)) : Body) >>= decodeTransaction
      = some zeroTransaction := rfl
  rw [inbound_success env (some []) zeroTransaction s hb hc hp]
  exact ⟨rfl, rfl, rfl⟩

/-- C10 (witness). -/
theorem c10_empty_object_witness :
    (inboundHandler wEnv (some []) initState).1.store
      = initState.store ++ [⟨wEnv.freshId, wEnv.now, "", "", "Processed"⟩] ∧
    (inboundHandler wEnv (some []) initState).1.published
      = initState.published
          ++ [⟨wEnv.freshId, wEnv.now, "", "", "Processed"⟩] ∧
    (inboundHandler wEnv (some []) initState).2.status = 200 :=
  c10_empty_object wEnv initState rfl rfl

end EdiGateway
